import Mathlib

/-!
Verification of the coffee-shop repository's environment-configuration
constants.

The repository consists of two variants of a front-end environment
configuration object:

  * `src/frontend/src/environments/environment.prod.ts` (first variant),
  * `src/unnamed/part_000` (second variant).

Each is a single exported object literal with fields `production`,
`apiServerUrl`, and a nested `auth0` object with fields `url`, `audience`,
`clientId`, `callbackURL`.  We embed each object literal as a JSON-like
value so that the key set and the nesting of the source literals are part
of the model, define field access as JavaScript-style lookup returning
`Option`, and settle the specification's claims about the two variants.
-/

/-- A JavaScript-style value: a boolean, a string, or an object literal,
which is a list of key-value pairs in source order. -/
inductive JSValue where
  | bool (b : Bool)
  | str (s : String)
  | obj (fields : List (String × JSValue))

/-- Lookup of a key among the fields of an object literal, first match
wins (as in a JavaScript object, where later duplicates would overwrite
earlier ones; the source literals have no duplicate keys). -/
def lookupField : List (String × JSValue) → String → Option JSValue
  | [], _ => none
  | (k, v) :: rest, key => if k = key then some v else lookupField rest key

/-- Field access on a value: defined on object literals, `none` otherwise. -/
def JSValue.get : JSValue → String → Option JSValue
  | .obj fields, key => lookupField fields key
  | _, _ => none

/-- The key set (in source order) of an object literal. -/
def JSValue.keys : JSValue → List String
  | .obj fields => fields.map Prod.fst
  | _ => []

/-- Access a field expected to hold a string. -/
def JSValue.getStr (v : JSValue) (key : String) : Option String :=
  match v.get key with
  | some (.str s) => some s
  | _ => none

/-- Access a field expected to hold a boolean. -/
def JSValue.getBool (v : JSValue) (key : String) : Option Bool :=
  match v.get key with
  | some (.bool b) => some b
  | _ => none

/-- Access along a path of keys, descending through nested objects. -/
def JSValue.readPath : JSValue → List String → Option JSValue
  | v, [] => some v
  | v, key :: rest =>
    match v.get key with
    | some w => w.readPath rest
    | none => none

/-- The `environment` constant of
`src/frontend/src/environments/environment.prod.ts` (the first variant). -/
def environmentProd : JSValue :=
  .obj
    [ ("production", .bool true),
      ("apiServerUrl", .str "https://coffee-shop-backend.onrender.com/"),
      ("auth0", .obj
        [ ("url", .str "amrikhudair.eu"),
          ("audience", .str "https://coffee-shop.test"),
          ("clientId", .str "6foUBjR8Uys0PRrhAEVJ5BF6lltFsYBX"),
          ("callbackURL", .str "http://localhost:8100") ]) ]

/-- The `environment` constant of `src/unnamed/part_000` (the second
variant, targeting the vercel.app hosting domain). -/
def environmentDelta : JSValue :=
  .obj
    [ ("production", .bool true),
      ("apiServerUrl", .str "https://coffee-shop-backend.onrender.com/"),
      ("auth0", .obj
        [ ("url", .str "amrikhudair.eu"),
          ("audience", .str "https://coffee-shop-delta.vercel.app"),
          ("clientId", .str "6foUBjR8Uys0PRrhAEVJ5BF6lltFsYBX"),
          ("callbackURL", .str "https://coffee-shop-delta.vercel.app") ]) ]

/-- The `apiServerUrl` field of a configuration variant. -/
def apiUrlOf (env : JSValue) : Option String :=
  env.getStr "apiServerUrl"

/-- The `auth0.url` field of a configuration variant. -/
def auth0UrlOf (env : JSValue) : Option String :=
  (env.get "auth0").bind (fun a => a.getStr "url")

/-- The `auth0.audience` field of a configuration variant. -/
def audienceOf (env : JSValue) : Option String :=
  (env.get "auth0").bind (fun a => a.getStr "audience")

/-- The `auth0.clientId` field of a configuration variant. -/
def clientIdOf (env : JSValue) : Option String :=
  (env.get "auth0").bind (fun a => a.getStr "clientId")

/-- The `auth0.callbackURL` field of a configuration variant. -/
def callbackOf (env : JSValue) : Option String :=
  (env.get "auth0").bind (fun a => a.getStr "callbackURL")

/-- Characters permitted inside a URL scheme (RFC 3986: ALPHA, DIGIT,
plus, minus, dot). -/
def isSchemeChar (c : Char) : Bool :=
  c.isAlphanum || c == '+' || c == '-' || c == '.'

/-- Split a character list at the first colon, provided everything before
it is made of scheme characters.  Returns the scheme characters (without
the colon) and the remainder. -/
def splitScheme : List Char → List Char → Option (List Char × List Char)
  | [], _ => none
  | c :: rest, acc =>
    if c == ':' then some (acc.reverse, rest)
    else if isSchemeChar c then splitScheme rest (c :: acc)
    else none

/-- Components of a parsed absolute URL. -/
structure Url where
  scheme : String
  host : String
  port : String
  path : String
deriving Repr, DecidableEq

/-- Parse a string as an absolute URL of the form
`scheme://host[:port][/path]`: a non-empty scheme starting with a letter,
a colon, two slashes, and a non-empty host.  Returns `none` when the
string is not of this form. -/
def parseAbsoluteUrl (s : String) : Option Url :=
  match splitScheme s.toList [] with
  | none => none
  | some ([], _) => none
  | some (c :: schemeRest, afterColon) =>
    if c.isAlpha then
      match afterColon with
      | '/' :: '/' :: tail =>
        let authority := tail.takeWhile (fun ch => ch != '/')
        let pathPart := tail.drop authority.length
        let host := authority.takeWhile (fun ch => ch != ':')
        let port := authority.drop (host.length + 1)
        if host.isEmpty then none
        else some (Url.mk (String.mk (c :: schemeRest)) (String.mk host)
          (String.mk port) (String.mk pathPart))
      | _ => none
    else none

/-- `true` when the given optional field is present and its value parses
as an absolute URL with the `https` scheme. -/
def httpsAbsolute (o : Option String) : Bool :=
  match o with
  | some s =>
    match parseAbsoluteUrl s with
    | some u => u.scheme == "https"
    | none => false
  | none => false

/-- `true` when the given optional field is present and its value parses
as an absolute URL (any scheme). -/
def absoluteUrl (o : Option String) : Bool :=
  match o with
  | some s => (parseAbsoluteUrl s).isSome
  | none => false

/-- `true` when the given string begins with a URL scheme followed by a
colon (so strings like host names without a scheme yield `false`). -/
def startsWithScheme (s : String) : Bool :=
  (splitScheme s.toList []).isSome

/-- `true` when the first character list is a prefix of the second. -/
def charsStartWith : List Char → List Char → Bool
  | [], _ => true
  | _ :: _, [] => false
  | c :: cs, d :: ds => c == d && charsStartWith cs ds

/-- `true` when the string `pre` is a prefix of the string `s`. -/
def strStartsWith (s pre : String) : Bool :=
  charsStartWith pre.toList s.toList

/-- `true` when the given optional field is present, non-empty, and is a
host-like token: it carries no URL scheme, in particular it does not
begin with http or https followed by the separator. -/
def hostLikeNoScheme (o : Option String) : Bool :=
  match o with
  | some s =>
    !s.isEmpty && !(startsWithScheme s)
      && !(strStartsWith s "http://") && !(strStartsWith s "https://")
  | none => false

/-- `true` when the given optional string field is present and non-empty. -/
def presentNonEmpty (o : Option String) : Bool :=
  match o with
  | some s => !s.isEmpty
  | none => false

/-- The six field paths of the configuration record. -/
def configFieldPaths : List (List String) :=
  [ ["production"], ["apiServerUrl"], ["auth0", "url"],
    ["auth0", "audience"], ["auth0", "clientId"], ["auth0", "callbackURL"] ]

/-- `true` when all six configuration fields are present in the variant
and the five string-valued ones are non-empty. -/
def allFieldsWellFormed (env : JSValue) : Bool :=
  (env.getBool "production").isSome
    && presentNonEmpty (apiUrlOf env)
    && presentNonEmpty (auth0UrlOf env)
    && presentNonEmpty (audienceOf env)
    && presentNonEmpty (clientIdOf env)
    && presentNonEmpty (callbackOf env)

/-- The operations the program performs on the configuration record: only
field reads (the source contains no assignment to the record or to any
of its fields). -/
inductive ConfigOp where
  | read (path : List String)

/-- Executing one operation on the configuration record: a read returns
the value at the path and leaves the record unchanged. -/
def runOp (env : JSValue) : ConfigOp → JSValue × Option JSValue
  | .read p => (env, env.readPath p)

/-- Executing a sequence of operations, collecting each read's result. -/
def runTrace : JSValue → List ConfigOp → JSValue × List (Option JSValue)
  | env, [] => (env, [])
  | env, op :: ops =>
    let step := runOp env op
    let rest := runTrace step.1 ops
    (rest.1, step.2 :: rest.2)

/-- C1: loading the first variant yields
apiServerUrl = "https://coffee-shop-backend.onrender.com/"; the second
variant yields the same apiServerUrl, and its callbackURL is
"https://coffee-shop-delta.vercel.app". -/
theorem c1_variant_values :
    apiUrlOf environmentProd = some "https://coffee-shop-backend.onrender.com/"
      ∧ apiUrlOf environmentDelta = some "https://coffee-shop-backend.onrender.com/"
      ∧ callbackOf environmentDelta = some "https://coffee-shop-delta.vercel.app" := by
  refine ⟨rfl, rfl, rfl⟩

/-- C2: in both variants, apiServerUrl parses as an absolute URL with the
https scheme, and auth0.audience and auth0.callbackURL each parse as
absolute URLs. -/
theorem c2_urls_parse :
    (httpsAbsolute (apiUrlOf environmentProd)
      && absoluteUrl (audienceOf environmentProd)
      && absoluteUrl (callbackOf environmentProd)
      && httpsAbsolute (apiUrlOf environmentDelta)
      && absoluteUrl (audienceOf environmentDelta)
      && absoluteUrl (callbackOf environmentDelta)) = true := by
  rfl

/-- C3: in both variants all six fields are present and each of the five
string fields is non-empty. -/
theorem c3_fields_present_nonempty :
    (allFieldsWellFormed environmentProd
      && allFieldsWellFormed environmentDelta) = true := by
  rfl

/-- C4: the two variants have the same key sets at the top level and
inside auth0, the values of production, apiServerUrl, auth0.url and
auth0.clientId coincide across the variants, and only the leaves
auth0.audience and auth0.callbackURL differ. -/
theorem c4_variants_differ_only_in_audience_callback :
    environmentProd.keys = environmentDelta.keys
      ∧ (environmentProd.get "auth0").map JSValue.keys
          = (environmentDelta.get "auth0").map JSValue.keys
      ∧ environmentProd.getBool "production" = environmentDelta.getBool "production"
      ∧ apiUrlOf environmentProd = apiUrlOf environmentDelta
      ∧ auth0UrlOf environmentProd = auth0UrlOf environmentDelta
      ∧ clientIdOf environmentProd = clientIdOf environmentDelta
      ∧ audienceOf environmentProd ≠ audienceOf environmentDelta
      ∧ callbackOf environmentProd ≠ callbackOf environmentDelta := by
  refine ⟨rfl, rfl, rfl, rfl, rfl, rfl, by decide, by decide⟩

/-- C5: in both variants auth0.url is a host-like token carrying no URL
scheme. -/
theorem c5_auth0_url_schemeless :
    (hostLikeNoScheme (auth0UrlOf environmentProd)
      && hostLikeNoScheme (auth0UrlOf environmentDelta)) = true := by
  rfl

/-- C6: in both variants the production field holds the boolean true. -/
theorem c6_production_true :
    environmentProd.getBool "production" = some true
      ∧ environmentDelta.getBool "production" = some true := by
  refine ⟨rfl, rfl⟩

/-- C7: every access to one of the six configuration fields succeeds in
both variants: reading any of the field paths returns a value, never a
failure, and no validation rejects a value. -/
theorem c7_reads_total :
    (configFieldPaths.all (fun p => (environmentProd.readPath p).isSome)
      && configFieldPaths.all (fun p => (environmentDelta.readPath p).isSome)) = true := by
  rfl

/-- C8: the configuration record is immutable: executing any sequence of
the program's operations leaves the record unchanged, and every read in
the trace returns exactly the value the field held at load. -/
theorem c8_immutable_after_load (env : JSValue) (ops : List ConfigOp) :
    (runTrace env ops).1 = env
      ∧ (runTrace env ops).2
          = ops.map (fun op => match op with | .read p => env.readPath p) := by
  induction ops with
  | nil => exact ⟨rfl, rfl⟩
  | cons op ops ih =>
    cases op with
    | read p => simpa [runTrace, runOp] using ih

/-- C9: in the second variant auth0.audience and auth0.callbackURL are
equal (both "https://coffee-shop-delta.vercel.app"), while in the first
variant they differ. -/
theorem c9_audience_callback_relation :
    audienceOf environmentDelta = callbackOf environmentDelta
      ∧ audienceOf environmentDelta = some "https://coffee-shop-delta.vercel.app"
      ∧ audienceOf environmentProd ≠ callbackOf environmentProd := by
  refine ⟨rfl, rfl, by decide⟩

/-- C10: in the first variant auth0.callbackURL is exactly
"http://localhost:8100", parsing with scheme http and host localhost,
while the variant's production flag is true. -/
theorem c10_prod_callback_is_localhost :
    callbackOf environmentProd = some "http://localhost:8100"
      ∧ parseAbsoluteUrl "http://localhost:8100"
          = some (Url.mk "http" "localhost" "8100" "")
      ∧ environmentProd.getBool "production" = some true := by
  refine ⟨rfl, by decide, rfl⟩
